import Mathlib

/-!
Verification development for the Eventor API client library
(`eventor_api.py`, `xml_utils.py`).

The library fetches XML documents over HTTP and flattens them into
tabular records.  We embed the parsed-XML data model
(`xml.etree.ElementTree`), the seven record extractors, the
query-parameter builders and the request wrapper as executable Lean
definitions, and prove the spec's testable properties about them.

Conventions of the embedding:
  * a parsed XML element is an `XmlNode` (tag, attributes, optional
    text, ordered children), mirroring `ET.Element`;
  * Python code that may raise is embedded in the `Py` monad
    (`Py.ok` = normal return, `Py.exn` = uncaught exception);
  * the "no data" sentinel returned by `_make_request` on parse
    failure (`None` in Python) is `Option.none`;
  * a flat record (one Python dict of optional strings) is an
    association list `Record` in insertion order.
-/

/-- A parsed XML element: tag, attribute list, text, ordered children.
Mirrors `xml.etree.ElementTree.Element`. -/
inductive XmlNode where
  | mk : String → List (String × String) → Option String → List XmlNode → XmlNode
deriving Repr

def XmlNode.tag : XmlNode → String
  | .mk t _ _ _ => t

def XmlNode.attrs : XmlNode → List (String × String)
  | .mk _ a _ _ => a

def XmlNode.text : XmlNode → Option String
  | .mk _ _ x _ => x

def XmlNode.children : XmlNode → List XmlNode
  | .mk _ _ _ c => c

/-- Attribute lookup, `elem.get(key)`: the attribute's value, or `None`
if the attribute is absent. -/
def XmlNode.getAttr (n : XmlNode) (k : String) : Option String :=
  (n.attrs.find? (fun p => p.1 == k)).map (fun p => p.2)

mutual

/-- All elements of the subtree rooted at `n`, in document (preorder)
order, `n` itself first — the order of `Element.iter()`. -/
def XmlNode.preorder : XmlNode → List XmlNode
  | .mk t a x cs => .mk t a x cs :: preorderList cs

/-- Preorder traversal of a forest of sibling subtrees. -/
def preorderList : List XmlNode → List XmlNode
  | [] => []
  | c :: cs => c.preorder ++ preorderList cs

end

/-- Proper descendants of `n` in document order (excludes `n` itself),
as selected by the `.//` path step. -/
def XmlNode.descendants (n : XmlNode) : List XmlNode :=
  preorderList n.children

/-- Direct children with the given tag, in document order:
the matches of a single-tag relative path step. -/
def childrenTagged (n : XmlNode) (t : String) : List XmlNode :=
  n.children.filter (fun c => c.tag == t)

/-- All descendants with the given tag: `elem.findall('.//T')`. -/
def findallDesc (n : XmlNode) (t : String) : List XmlNode :=
  n.descendants.filter (fun c => c.tag == t)

/-- First direct child with the given tag: `elem.find('T')`. -/
def findChild (n : XmlNode) (t : String) : Option XmlNode :=
  (childrenTagged n t).head?

/-- First descendant with the given tag: `elem.find('.//T')`. -/
def findDesc (n : XmlNode) (t : String) : Option XmlNode :=
  (findallDesc n t).head?

/-- First match of the child path `T1/T2`: for each `T1` child in
order, its `T2` children in order; head of the chained results.
This is `elem.find('T1/T2')`. -/
def findChild2 (n : XmlNode) (t1 t2 : String) : Option XmlNode :=
  (((childrenTagged n t1).map (fun a => childrenTagged a t2)).flatten).head?

/-- First match of the path `.//T1/T2`: for each `T1` descendant in
document order, its `T2` children; head of the chained results.
This is `elem.find('.//T1/T2')`. -/
def findDescChild (n : XmlNode) (t1 t2 : String) : Option XmlNode :=
  (((findallDesc n t1).map (fun a => childrenTagged a t2)).flatten).head?

/-- First match of `.//T1/T2[@k="v"]`: as `findDescChild`, restricted to
elements whose attribute `k` equals `v`. -/
def findDescChildAttr (n : XmlNode) (t1 t2 k v : String) : Option XmlNode :=
  (((findallDesc n t1).map
      (fun a => (childrenTagged a t2).filter (fun c => c.getAttr k == some v))).flatten).head?

/-- `elem.findtext('T')`: text of the first `T` child — the empty
string when the element exists but has no text, `None` when there is
no such element. -/
def findtext1 (n : XmlNode) (t : String) : Option String :=
  (findChild n t).map (fun c => c.text.getD "")

/-- `elem.findtext('T1/T2')`, with the same empty-string convention. -/
def findtext2 (n : XmlNode) (t1 t2 : String) : Option String :=
  (findChild2 n t1 t2).map (fun c => c.text.getD "")

/-- Kinds of Python exception the embedded code can raise. -/
inductive PyError where
  | attributeError
  | typeError
deriving Repr, DecidableEq

/-- Result of running a piece of Python code: a value, or an uncaught
exception. -/
inductive Py (α : Type) where
  | ok : α → Py α
  | exn : PyError → Py α
deriving Repr, DecidableEq

/-- Sequencing of Python statements: an exception aborts the rest. -/
def Py.bind {α β : Type} : Py α → (α → Py β) → Py β
  | .ok a, f => f a
  | .exn e, _ => .exn e

instance : Monad Py where
  pure := Py.ok
  bind := Py.bind

/-- A flat record: one output row, a Python dict from column name to
optional string value, kept in insertion order. -/
abbrev Record : Type := List (String × Option String)

/-- Column names of a record, in insertion order. -/
def recordKeys (r : Record) : List String :=
  r.map (fun p => p.1)

/-- Look a column up in a record: `none` when the column is absent,
`some v` when present with (optional-string) value `v`. -/
def getField (r : Record) (k : String) : Option (Option String) :=
  (r.find? (fun p => p.1 == k)).map (fun p => p.2)

/-- Attribute access on a possibly-`None` Python value: `None.attr`
raises `AttributeError`. -/
def pyAttr : Option XmlNode → Py XmlNode
  | none => .exn .attributeError
  | some n => .ok n

/-- The value of `node.find(path).text` guarded by
`if node.find(path) is not None else None`: the located element's text
(possibly `None`), or `None` when the element is absent. -/
def guardedText : Option XmlNode → Option String
  | none => none
  | some n => n.text

/-- The value of `node.find(path).get(attr)` guarded by
`if node.find(path) is not None else None`. -/
def guardedAttr (k : String) : Option XmlNode → Option String
  | none => none
  | some n => n.getAttr k

/-- The Python string join `sep.join([d.text for d in nodes])`:
raises `TypeError` when some element's text is `None`. -/
def joinTexts (sep : String) (ns : List XmlNode) : Py String :=
  match ns.mapM (fun n => n.text) with
  | some ts => .ok (String.intercalate sep ts)
  | none => .exn .typeError

/-! ## The events extractor (`events_to_dataframe`) -/

/-- Line 74 of the source:
`event.find('.//Organiser/OrganisationId').text if event.find('.//Organiser') is not None else None`.
The guard checks only for an `Organiser` descendant; when one exists
but carries no `OrganisationId` child, the `.text` access is performed
on `None` and raises `AttributeError`. -/
def eventOrgId (event : XmlNode) : Py (Option String) :=
  if (findDesc event "Organiser").isSome then
    match findDescChild event "Organiser" "OrganisationId" with
    | some n => .ok n.text
    | none => .exn .attributeError
  else
    .ok none

/-- The fixed base fields of one event record (source lines 65-78).
Evaluation order matters only for the two fallible entries:
the `OrganisationId` expression is evaluated before the
`DisciplineIds` join, as in the Python dict literal. -/
def eventBase (event : XmlNode) : Py Record := do
  let orgId ← eventOrgId event
  let discIds ← joinTexts ", " (findallDesc event "DisciplineId")
  pure [("EventId", findtext1 event "EventId"),
        ("Name", findtext1 event "Name"),
        ("StartDate", findtext2 event "StartDate" "Date"),
        ("StartClock", findtext2 event "StartDate" "Clock"),
        ("FinishDate", findtext2 event "FinishDate" "Date"),
        ("FinishClock", findtext2 event "FinishDate" "Clock"),
        ("EventClassificationId", findtext1 event "EventClassificationId"),
        ("EventStatusId", findtext1 event "EventStatusId"),
        ("OrganisationId", orgId),
        ("WebURL", findtext1 event "WebURL"),
        ("PunchingUnitType", guardedAttr "value" (findChild event "PunchingUnitType")),
        ("DisciplineIds", some discIds)]

/-- RaceDate block of the event record (source lines 86-92). -/
def raceDateFields (er : XmlNode) : Record :=
  match findChild er "RaceDate" with
  | some rd => [("RaceDate", findtext1 rd "Date"), ("RaceClock", findtext1 rd "Clock")]
  | none => [("RaceDate", none), ("RaceClock", none)]

/-- EventCenterPosition block of the event record (source lines 94-103). -/
def centerFields (er : XmlNode) : Record :=
  match findDesc er "EventCenterPosition" with
  | some c =>
      [("EventCenterX", c.getAttr "x"),
       ("EventCenterY", c.getAttr "y"),
       ("EventCenterUnit", c.getAttr "unit")]
  | none =>
      [("EventCenterX", none), ("EventCenterY", none), ("EventCenterUnit", none)]

/-- The block written by the absent-`EventRace` branch (source lines
104-111): no `EventRaceDistance` key, `EventRaceName` set to the empty
string rather than null. -/
def noRaceFields : Record :=
  [("EventRaceId", none), ("EventRaceName", some ""),
   ("RaceDate", none), ("RaceClock", none),
   ("EventCenterX", none), ("EventCenterY", none), ("EventCenterUnit", none)]

/-- EventRace block of the event record (source lines 80-111).  Note
that the absent-race branch writes no `EventRaceDistance` key and sets
`EventRaceName` to the empty string; in the present-race branch
`findtext('Name') or ''` collapses both a missing and an empty name to
the empty string. -/
def eventRaceFields (event : XmlNode) : Record :=
  match findDesc event "EventRace" with
  | some er =>
      [("EventRaceDistance", er.getAttr "raceDistance"),
       ("EventRaceId", findtext1 er "EventRaceId"),
       ("EventRaceName", some ((findtext1 er "Name").getD ""))]
      ++ raceDateFields er ++ centerFields er
  | none => noRaceFields

/-- One iteration of the event loop: the dict built for one `Event`
node (source lines 63-113). -/
def eventRecord (event : XmlNode) : Py Record := do
  let base ← eventBase event
  pure (base ++ eventRaceFields event)

/-- `events_to_dataframe` (source lines 57-114): the only extractor
that checks for the "no data" sentinel (`if events_data is None:
return pd.DataFrame()`). -/
def events_to_dataframe (d : Option XmlNode) : Py (List Record) :=
  match d with
  | none => .ok []
  | some t => (findallDesc t "Event").mapM eventRecord

/-! ## The organizations extractor (`organizations_to_dataframe`) -/

/-- The dict built for one `Organisation` node
(source lines 124-149).  Every guarded lookup dereferences exactly the
expression its guard tests, so this record never raises. -/
def orgRecord (org : XmlNode) : Record :=
  [("OrganisationId", findtext1 org "OrganisationId"),
   ("Name", findtext1 org "Name"),
   ("ShortName", findtext1 org "ShortName"),
   ("MediaName", findtext1 org "MediaName"),
   ("OrganisationTypeId", findtext1 org "OrganisationTypeId"),
   ("CountryId", guardedAttr "value" (findDescChild org "Country" "CountryId")),
   ("Alpha3", guardedAttr "value" (findDescChild org "Country" "Alpha3")),
   ("CountryName_en", guardedText (findDescChildAttr org "Country" "Name" "languageId" "en")),
   ("CountryName_sv", guardedText (findDescChildAttr org "Country" "Name" "languageId" "sv")),
   ("Address_careOf", guardedAttr "careOf" (findDesc org "Address")),
   ("Address_street", guardedAttr "street" (findDesc org "Address")),
   ("Address_city", guardedAttr "city" (findDesc org "Address")),
   ("Address_zipCode", guardedAttr "zipCode" (findDesc org "Address")),
   ("AddressType", guardedAttr "value" (findDesc org "AddressType")),
   ("Tele_phoneNumber", guardedAttr "phoneNumber" (findDesc org "Tele")),
   ("Tele_mobilePhoneNumber", guardedAttr "mobilePhoneNumber" (findDesc org "Tele")),
   ("Tele_mailAddress", guardedAttr "mailAddress" (findDesc org "Tele")),
   ("TeleType", guardedAttr "value" (findDesc org "TeleType")),
   ("ParentOrganisationId", guardedText (findDescChild org "ParentOrganisation" "OrganisationId")),
   ("OrganisationStatusId", findtext1 org "OrganisationStatusId"),
   ("ModifyDate", guardedText (findDescChild org "ModifyDate" "Date")),
   ("ModifyClock", guardedText (findDescChild org "ModifyDate" "Clock"))]

/-- `organizations_to_dataframe` (source lines 120-151): no sentinel
check, so `organizations_data.findall` on `None` raises
`AttributeError`. -/
def organizations_to_dataframe (d : Option XmlNode) : Py (List Record) := do
  let t ← pyAttr d
  pure ((findallDesc t "Organisation").map orgRecord)

/-! ## The event-classes extractor (`event_classes_to_dataframe`) -/

/-- The dict built for one `EventClass` node (source lines 165-188). -/
def eventClassRecord (ec : XmlNode) : Record :=
  [("EventClassId", findtext1 ec "EventClassId"),
   ("Name", findtext1 ec "Name"),
   ("ClassShortName", findtext1 ec "ClassShortName"),
   ("EventClassStatus", guardedAttr "value" (findChild ec "EventClassStatus")),
   ("ClassTypeId", guardedText (findDescChild ec "ClassType" "ClassTypeId")),
   ("ClassTypeShortName", guardedText (findDescChild ec "ClassType" "ShortName")),
   ("ClassTypeName", guardedText (findDescChild ec "ClassType" "Name")),
   ("ExternalId", findtext1 ec "ExternalId"),
   ("PunchingUnitType", guardedAttr "value" (findChild ec "PunchingUnitType")),
   ("ClassRaceInfoId", guardedText (findDescChild ec "ClassRaceInfo" "ClassRaceInfoId")),
   ("EventRaceId", guardedText (findDescChild ec "ClassRaceInfo" "EventRaceId")),
   ("ClassRaceName", guardedText (findDescChild ec "ClassRaceInfo" "Name")),
   ("ClassRaceStatus", guardedAttr "value" (findDescChild ec "ClassRaceInfo" "ClassRaceStatus")),
   ("ClassRacePunchingUnitType", guardedAttr "value" (findDescChild ec "ClassRaceInfo" "PunchingUnitType")),
   ("MinRunners", guardedAttr "minRunners" (findDesc ec "ClassRaceInfo")),
   ("MaxRunners", guardedAttr "maxRunners" (findDesc ec "ClassRaceInfo")),
   ("NoOfEntries", guardedAttr "noOfEntries" (findDesc ec "ClassRaceInfo")),
   ("NoOfStarts", guardedAttr "noOfStarts" (findDesc ec "ClassRaceInfo")),
   ("Sex", ec.getAttr "sex"),
   ("NumberOfEntries", ec.getAttr "numberOfEntries")]

/-- `event_classes_to_dataframe` (source lines 161-190): no sentinel
check. -/
def event_classes_to_dataframe (d : Option XmlNode) : Py (List Record) := do
  let t ← pyAttr d
  pure ((findallDesc t "EventClass").map eventClassRecord)

/-! ## The entry-fees extractor (`entryfees_to_dataframe`) -/

/-- The dict built for one `EntryFee` node (source lines 199-213). -/
def entryFeeRecord (ef : XmlNode) : Record :=
  [("EntryFeeId", findtext1 ef "EntryFeeId"),
   ("Name", findtext1 ef "Name"),
   ("Amount", findtext1 ef "Amount"),
   ("Currency", guardedAttr "currency" (findChild ef "Amount")),
   ("ExternalFee", findtext1 ef "ExternalFee"),
   ("FromDateOfBirth", guardedText (findDescChild ef "FromDateOfBirth" "Date")),
   ("ToDateOfBirth", guardedText (findDescChild ef "ToDateOfBirth" "Date")),
   ("EntryFeeGroupId", findtext1 ef "EntryFeeGroupId"),
   ("TaxIncluded", ef.getAttr "taxIncluded"),
   ("EntryFeeType", ef.getAttr "entryFeeType"),
   ("Type", ef.getAttr "type")]

/-- `entryfees_to_dataframe` (source lines 195-215): no sentinel
check. -/
def entryfees_to_dataframe (d : Option XmlNode) : Py (List Record) := do
  let t ← pyAttr d
  pure ((findallDesc t "EntryFee").map entryFeeRecord)

/-! ## The entries extractor (`entries_to_dataframe`) -/

/-- The dict built for one `Entry` node (source lines 282-302). -/
def entryRecord (entry : XmlNode) : Record :=
  [("EntryId", findtext1 entry "EntryId"),
   ("CompetitorId", guardedText (findDescChild entry "Competitor" "CompetitorId")),
   ("PersonId", guardedText (findDescChild entry "Competitor" "PersonId")),
   ("OrganisationId", guardedText (findDescChild entry "Competitor" "OrganisationId")),
   ("CCardId", guardedText (findDescChild entry "CCard" "CCardId")),
   ("PunchingUnitType", guardedAttr "value" (findDescChild entry "CCard" "PunchingUnitType")),
   ("EventClassId", guardedText (findDescChild entry "EntryClass" "EventClassId")),
   ("EventId", findtext1 entry "EventId"),
   ("EventRaceId", findtext1 entry "EventRaceId"),
   ("BibNumber", findtext1 entry "BibNumber"),
   ("EntryDate", guardedText (findDescChild entry "EntryDate" "Date")),
   ("EntryClock", guardedText (findDescChild entry "EntryDate" "Clock")),
   ("EntryFeeGroupId", findtext1 entry "EntryFeeGroupId"),
   ("CreatedBy", guardedText (findDescChild entry "CreatedBy" "PersonId")),
   ("ModifyDate", guardedText (findDescChild entry "ModifyDate" "Date")),
   ("ModifyClock", guardedText (findDescChild entry "ModifyDate" "Clock")),
   ("ModifiedBy", guardedText (findDescChild entry "ModifiedBy" "PersonId"))]

/-- `entries_to_dataframe` (source lines 278-304): no sentinel check. -/
def entries_to_dataframe (d : Option XmlNode) : Py (List Record) := do
  let t ← pyAttr d
  pure ((findallDesc t "Entry").map entryRecord)

/-! ## The competitor-count extractor (`competitor_count_to_dataframe`) -/

/-- The dict built for one `CompetitorCount` node
(source lines 334-340): attributes only. -/
def competitorCountRecord (cc : XmlNode) : Record :=
  [("eventId", cc.getAttr "eventId"),
   ("numberOfEntries", cc.getAttr "numberOfEntries"),
   ("numberOfStarts", cc.getAttr "numberOfStarts")]

/-- `competitor_count_to_dataframe` (source lines 330-342): no
sentinel check. -/
def competitor_count_to_dataframe (d : Option XmlNode) : Py (List Record) := do
  let t ← pyAttr d
  pure ((findallDesc t "CompetitorCount").map competitorCountRecord)

/-! ## The memberships extractor (`memberships_to_dataframe`) -/

/-- The dict built for one `Membership` node, with the organization
identity triple read once and repeated (source lines 376-392). -/
def membershipRecord (oid oname oshort : Option String) (m : XmlNode) : Record :=
  [("OrganisationId", oid),
   ("OrganisationName", oname),
   ("OrganisationShortName", oshort),
   ("MembershipId", findtext1 m "Id"),
   ("Year", findtext1 m "Year"),
   ("TypeId", guardedText (findDescChild m "Type" "Id")),
   ("TypeName", guardedText (findDescChild m "Type" "Name")),
   ("PersonId", guardedText (findDescChild m "Person" "Id")),
   ("FirstName", guardedText (findDescChild m "Person" "FirstName")),
   ("LastName", guardedText (findDescChild m "Person" "LastName")),
   ("BirthDate", guardedText (findDescChild m "Person" "BirthDate")),
   ("Sex", guardedText (findDescChild m "Person" "Sex")),
   ("PaidTime", findtext1 m "PaidTime")]

/-- `memberships_to_dataframe` (source lines 367-394): no sentinel
check, and the organization node itself is dereferenced unguarded —
`memberships_data.find('.//Organisation').findtext('Id')` raises
`AttributeError` when no `Organisation` node exists. -/
def memberships_to_dataframe (d : Option XmlNode) : Py (List Record) := do
  let t ← pyAttr d
  let org ← pyAttr (findDesc t "Organisation")
  let oid := findtext1 org "Id"
  let oname := findtext1 org "Name"
  let oshort := findtext1 org "ShortName"
  pure ((findallDesc t "Membership").map (membershipRecord oid oname oshort))

/-! ## The discipline-deduplication helper (`extract_disciplines_from_events`) -/

/-- Python set insertion on a set represented as a duplicate-free list
in first-insertion order.  The real set's iteration order is
unspecified; only cardinality and membership of the result are
modelled as meaningful. -/
def setInsert (s : List (String × String)) (p : String × String) : List (String × String) :=
  if s.contains p then s else s ++ [p]

/-- The extraction and deduplication loop of
`extract_disciplines_from_events` (source lines 410-420), applied to
the response tree that `get_events` returned.  `if discipline_id and
name:` keeps a pair only when both strings are present and non-empty
(Python truthiness). -/
def extract_disciplines_from_events (events_data : Option XmlNode) : Py (List (String × String)) := do
  let t ← pyAttr events_data
  pure ((findallDesc t "Event").foldl
    (fun acc event =>
      (findallDesc event "Discipline").foldl
        (fun acc2 d =>
          match findtext1 d "DisciplineId", findtext1 d "Name" with
          | some i, some nm =>
              if i != "" && nm != "" then setInsert acc2 (i, nm) else acc2
          | _, _ => acc2)
        acc)
    [])

/-! ## The request wrapper (`_make_request`) -/

/-- An HTTP response as seen by the client: status code and body. -/
structure HttpResponse where
  status : Nat
  body : String
deriving Repr, DecidableEq

/-- What `requests.get` produced: either the call itself raised a
`RequestException` (connection failure and the like), or a response
arrived. -/
inductive RequestOutcome where
  | exnGet : String → RequestOutcome
  | resp : HttpResponse → RequestOutcome
deriving Repr, DecidableEq

/-- Transport-level failures propagated by `_make_request`. -/
inductive TransportError where
  | connection : String → TransportError
  | http : Nat → TransportError
deriving Repr, DecidableEq

/-- The `requests` library's `Response.raise_for_status`: raises
`HTTPError` (a `RequestException`) exactly for 4xx and 5xx status
codes. -/
def raise_for_status (r : HttpResponse) : Except TransportError HttpResponse :=
  if 400 ≤ r.status ∧ r.status < 600 then .error (.http r.status) else .ok r

/-- `_make_request` (source lines 20-33), abstracted over the XML
parser: `parse body = none` models `ET.ParseError`.  The outer `except
RequestException` block logs and re-raises, so a transport error
reaches the caller unchanged, exactly once (there is no retry — the
body performs a single `requests.get`).  A parse failure is logged and
becomes the `None` sentinel. -/
def make_request (parse : String → Option XmlNode) :
    RequestOutcome → Except TransportError (Option XmlNode)
  | .exnGet e => .error (.connection e)
  | .resp r =>
    match raise_for_status r with
    | .error e => .error e
    | .ok r2 => .ok (parse r2.body)

/-! ## Query-parameter builders -/

/-- A value stored in the `params` dict handed to `requests.get`:
the source stores strings, ints and bools. -/
inductive ParamValue where
  | s : String → ParamValue
  | i : Int → ParamValue
  | b : Bool → ParamValue
deriving Repr, DecidableEq

/-- How the HTTP layer renders a parameter value into the query
string: `requests` URL-encodes `str(value)`, and Python's `str` of a
bool is the capitalized `True` / `False`. -/
def ParamValue.render : ParamValue → String
  | .s v => v
  | .i v => toString v
  | .b true => "True"
  | .b false => "False"

/-- The idiom `if x: params[key] = f"{x}{suffix}"` for an optional
date string: present and non-empty (Python truthiness) adds one
entry. -/
def dateParam (key suffix : String) : Option String → List (String × ParamValue)
  | none => []
  | some s => if s = "" then [] else [(key, .s (s ++ suffix))]

/-- The idiom `if xs: params[key] = ','.join(map(str, xs))` for an
optional ID list: present and non-empty adds one comma-joined entry. -/
def listParam (key : String) : Option (List Int) → List (String × ParamValue)
  | none => []
  | some l => if l = [] then [] else [(key, .s (String.intercalate "," (l.map toString)))]

/-- The idiom `if xs is not None: params[key] = ','.join(map(str, xs))`
used by `get_competitor_count`: any present list (even empty) adds the
entry. -/
def listParamAny (key : String) : Option (List Int) → List (String × ParamValue)
  | none => []
  | some l => [(key, .s (String.intercalate "," (l.map toString)))]

/-- Query-string lookup in the built parameter dict (keys are unique
across each builder's blocks). -/
def lookupParam (ps : List (String × ParamValue)) (k : String) : Option ParamValue :=
  (ps.find? (fun p => p.1 == k)).map (fun p => p.2)

/-- The `params` dict built by `get_events` (source lines 47-53). -/
def get_events_params (from_date to_date : Option String)
    (classification_ids : Option (List Int)) : List (String × ParamValue) :=
  dateParam "fromDate" " 00:00:00" from_date ++
  dateParam "toDate" " 23:59:59" to_date ++
  listParam "classificationIds" classification_ids

/-- The `params` dict built by `get_event_classes`
(source lines 155-158). -/
def get_event_classes_params (event_id : Int) (include_entry_fees : Bool) :
    List (String × ParamValue) :=
  [("eventId", .i event_id), ("includeEntryFees", .b include_entry_fees)]

/-- The `params` dict built by `get_entries` (source lines 252-274):
nine guarded optional filters followed by four always-present boolean
flags. -/
def get_entries_params (organisation_ids event_ids event_class_ids : Option (List Int))
    (from_event_date to_event_date from_entry_date to_entry_date
     from_modify_date to_modify_date : Option String)
    (include_entry_fees include_person_element
     include_organisation_element include_event_element : Bool) :
    List (String × ParamValue) :=
  listParam "organisationIds" organisation_ids ++
  listParam "eventIds" event_ids ++
  listParam "eventClassIds" event_class_ids ++
  dateParam "fromEventDate" " 00:00:00" from_event_date ++
  dateParam "toEventDate" " 23:59:59" to_event_date ++
  dateParam "fromEntryDate" " 00:00:00" from_entry_date ++
  dateParam "toEntryDate" " 23:59:59" to_entry_date ++
  dateParam "fromModifyDate" " 00:00:00" from_modify_date ++
  dateParam "toModifyDate" " 23:59:59" to_modify_date ++
  [("includeEntryFees", .b include_entry_fees),
   ("includePersonElement", .b include_person_element),
   ("includeOrganisationElement", .b include_organisation_element),
   ("includeEventElement", .b include_event_element)]

/-- The `params` dict built by `get_competitor_count`
(source lines 320-326): `is not None` guards. -/
def get_competitor_count_params (organisation_ids event_ids person_ids : Option (List Int)) :
    List (String × ParamValue) :=
  listParamAny "organisationIds" organisation_ids ++
  listParamAny "eventIds" event_ids ++
  listParamAny "personIds" person_ids

/-- The `params` dict built by `get_memberships`
(source lines 358-363). -/
def get_memberships_params (organisation_id year : Int)
    (include_child_organisations include_contact_details : Bool) :
    List (String × ParamValue) :=
  [("organisationId", .i organisation_id),
   ("year", .i year),
   ("includeChildOrganisations", .b include_child_organisations),
   ("includeContactDetails", .b include_contact_details)]

/-! ## Projections used to state the claims -/

/-- Number of rows of an extraction result, when it did not raise. -/
def rowCount (r : Py (List Record)) : Option Nat :=
  match r with
  | .ok rs => some rs.length
  | .exn _ => none

/-- First record of an extraction result, when it did not raise and
produced at least one row. -/
def firstRecord (r : Py (List Record)) : Option Record :=
  match r with
  | .ok (rec :: _) => some rec
  | _ => none

/-- Field of the first record: outer `Option` is "result ok and
non-empty", middle is "column present", inner is the cell value. -/
def fieldOfFirst (r : Py (List Record)) (k : String) : Option (Option (Option String)) :=
  (firstRecord r).map (fun rec => getField rec k)

/-- Whether every row of a successful extraction result carries the
given cell in the given column. -/
def allRowsHave (r : Py (List Record)) (k : String) (v : Option (Option String)) : Bool :=
  match r with
  | .ok rs => rs.all (fun rec => getField rec k == v)
  | .exn _ => false

/-- Number of discipline pairs of a successful deduplication result. -/
def disciplineRowCount (r : Py (List (String × String))) : Option Nat :=
  match r with
  | .ok l => some l.length
  | .exn _ => none

/-- Whether a successful deduplication result contains a pair. -/
def disciplinesContain (r : Py (List (String × String))) (p : String × String) : Bool :=
  match r with
  | .ok l => l.contains p
  | .exn _ => false

/-! ## Fixed column sets of the events extractor -/

/-- The twelve base columns written for every event record. -/
def eventBaseKeys : List String :=
  ["EventId", "Name", "StartDate", "StartClock", "FinishDate", "FinishClock",
   "EventClassificationId", "EventStatusId", "OrganisationId", "WebURL",
   "PunchingUnitType", "DisciplineIds"]

/-- The race-derived columns written when an `EventRace` node is
present. -/
def raceKeys : List String :=
  ["EventRaceDistance", "EventRaceId", "EventRaceName", "RaceDate", "RaceClock",
   "EventCenterX", "EventCenterY", "EventCenterUnit"]

/-- The race-derived columns written when no `EventRace` node is
present: `EventRaceDistance` is missing. -/
def noRaceKeys : List String :=
  ["EventRaceId", "EventRaceName", "RaceDate", "RaceClock",
   "EventCenterX", "EventCenterY", "EventCenterUnit"]

/-! ## Concrete scenario inputs -/

/-- Shorthand for a childless element with only text. -/
def leaf (t : String) (x : String) : XmlNode :=
  .mk t [] (some x) []

/-- An event whose `Organiser` node has no `OrganisationId` child:
the input on which source line 74 dereferences `None`. -/
def bareOrganiserTree : XmlNode :=
  .mk "EventList" [] none
    [.mk "Event" [] none [.mk "Organiser" [] none []]]

/-- A memberships response with no `Organisation` node: the input on
which source line 372 dereferences `None`. -/
def noOrganisationTree : XmlNode :=
  .mk "MembershipList" [] none
    [.mk "Membership" [] none [leaf "Id" "1"]]

/-- Spec scenario: one event whose race sub-node carries
`raceDistance="5000"` and which has no center-position node. -/
def raceDistanceTree : XmlNode :=
  .mk "EventList" [] none
    [.mk "Event" [] none
      [leaf "EventId" "42",
       .mk "EventRace" [("raceDistance", "5000")] none
         [leaf "EventRaceId" "420"]]]

/-- A single event with no `EventRace` node at all (and no other
children). -/
def noRaceTree : XmlNode :=
  .mk "EventList" [] none [.mk "Event" [] none []]

/-- The bare event node of `noRaceTree`. -/
def bareEvent : XmlNode :=
  .mk "Event" [] none []

/-- The record the events extractor produces for `bareEvent`. -/
def bareEventRecord : Record :=
  [("EventId", none), ("Name", none), ("StartDate", none), ("StartClock", none),
   ("FinishDate", none), ("FinishClock", none), ("EventClassificationId", none),
   ("EventStatusId", none), ("OrganisationId", none), ("WebURL", none),
   ("PunchingUnitType", none), ("DisciplineIds", some ""),
   ("EventRaceId", none), ("EventRaceName", some ""),
   ("RaceDate", none), ("RaceClock", none),
   ("EventCenterX", none), ("EventCenterY", none), ("EventCenterUnit", none)]

/-- Spec scenario: one organization (`Id=7`, `Name="Acme"`) and two
membership nodes. -/
def acmeTree : XmlNode :=
  .mk "MembershipList" [] none
    [.mk "Organisation" [] none
      [leaf "Id" "7", leaf "Name" "Acme", leaf "ShortName" "AC"],
     .mk "Membership" [] none [leaf "Id" "100", leaf "Year" "2024"],
     .mk "Membership" [] none [leaf "Id" "101", leaf "Year" "2024"]]

/-- One discipline element with id and name. -/
def disciplineNode (i nm : String) : XmlNode :=
  .mk "Discipline" [] none [leaf "DisciplineId" i, leaf "Name" nm]

/-- Spec scenario: two events sharing one identical
(id, name) discipline pair, one event with a distinct pair. -/
def disciplinesTree : XmlNode :=
  .mk "EventList" [] none
    [.mk "Event" [] none [disciplineNode "1" "Foot O"],
     .mk "Event" [] none [disciplineNode "1" "Foot O"],
     .mk "Event" [] none [disciplineNode "2" "MTB O"]]

/-! ## Lookup lemmas -/

theorem lookupParam_append_left (xs ys : List (String × ParamValue)) (k : String)
    (v : ParamValue) (h : lookupParam xs k = some v) :
    lookupParam (xs ++ ys) k = some v := by
  induction xs with
  | nil => simp [lookupParam] at h
  | cons p xs ih =>
    cases hp : p.1 == k with
    | true =>
      simp [lookupParam, List.find?, hp] at h ⊢
      exact h
    | false =>
      simp only [lookupParam, List.cons_append, List.find?, hp] at h ⊢
      exact ih h

theorem lookupParam_append_of_none (xs ys : List (String × ParamValue)) (k : String)
    (h : lookupParam xs k = none) :
    lookupParam (xs ++ ys) k = lookupParam ys k := by
  induction xs with
  | nil => rfl
  | cons p xs ih =>
    cases hp : p.1 == k with
    | true => simp [lookupParam, List.find?, hp] at h
    | false =>
      simp only [lookupParam, List.cons_append, List.find?, hp] at h ⊢
      exact ih h

theorem lookupParam_dateParam_ne (key suffix k : String) (a : Option String)
    (h : (key == k) = false) : lookupParam (dateParam key suffix a) k = none := by
  cases a with
  | none => rfl
  | some s =>
    simp only [dateParam]
    split
    · rfl
    · simp [lookupParam, List.find?, h]

theorem lookupParam_dateParam_self (key suffix s : String) (h : s ≠ "") :
    lookupParam (dateParam key suffix (some s)) key = some (.s (s ++ suffix)) := by
  simp [dateParam, h, lookupParam, List.find?]

theorem lookupParam_listParam_ne (key k : String) (a : Option (List Int))
    (h : (key == k) = false) : lookupParam (listParam key a) k = none := by
  cases a with
  | none => rfl
  | some l =>
    simp only [listParam]
    split
    · rfl
    · simp [lookupParam, List.find?, h]

theorem lookupParam_listParam_self (key : String) (l : List Int) (h : l ≠ []) :
    lookupParam (listParam key (some l)) key
      = some (.s (String.intercalate "," (l.map toString))) := by
  simp [listParam, h, lookupParam, List.find?]

theorem lookupParam_listParamAny_ne (key k : String) (a : Option (List Int))
    (h : (key == k) = false) : lookupParam (listParamAny key a) k = none := by
  cases a with
  | none => rfl
  | some l => simp [listParamAny, lookupParam, List.find?, h]

theorem lookupParam_listParamAny_self (key : String) (l : List Int) :
    lookupParam (listParamAny key (some l)) key
      = some (.s (String.intercalate "," (l.map toString))) := by
  simp [listParamAny, lookupParam, List.find?]

theorem getField_append_right (xs ys : Record) (k : String) (h : ¬ k ∈ recordKeys xs) :
    getField (xs ++ ys) k = getField ys k := by
  induction xs with
  | nil => rfl
  | cons p xs ih =>
    simp only [recordKeys, List.map_cons, List.mem_cons, not_or] at h
    have hp : (p.1 == k) = false := by
      simp only [beq_eq_false_iff_ne]
      exact fun hk => h.1 hk.symm
    simp only [getField, List.cons_append, List.find?, hp]
    exact ih (by simpa [recordKeys] using h.2)

/-! ## Schema lemmas for the events extractor -/

theorem eventBase_keys (e : XmlNode) (r : Record) (h : eventBase e = Py.ok r) :
    recordKeys r = eventBaseKeys := by
  unfold eventBase at h
  cases h1 : eventOrgId e with
  | exn err => rw [h1] at h; simp [Bind.bind, Py.bind] at h
  | ok orgId =>
    rw [h1] at h
    cases h2 : joinTexts ", " (findallDesc e "DisciplineId") with
    | exn err => rw [h2] at h; simp [Bind.bind, Py.bind] at h
    | ok discIds =>
      rw [h2] at h
      simp only [Bind.bind, Py.bind, pure, Py.ok.injEq] at h
      rw [← h]
      rfl

theorem raceDateFields_keys (er : XmlNode) :
    recordKeys (raceDateFields er) = ["RaceDate", "RaceClock"] := by
  cases h : findChild er "RaceDate" <;> simp [raceDateFields, h, recordKeys]

theorem centerFields_keys (er : XmlNode) :
    recordKeys (centerFields er) = ["EventCenterX", "EventCenterY", "EventCenterUnit"] := by
  cases h : findDesc er "EventCenterPosition" <;> simp [centerFields, h, recordKeys]

theorem eventRaceFields_keys (e : XmlNode) :
    recordKeys (eventRaceFields e)
      = if (findDesc e "EventRace").isSome then raceKeys else noRaceKeys := by
  cases h : findDesc e "EventRace" with
  | none => simp [eventRaceFields, h, noRaceFields, recordKeys, noRaceKeys]
  | some er =>
    have hd := raceDateFields_keys er
    have hc := centerFields_keys er
    simp only [recordKeys] at hd hc
    simp [eventRaceFields, h, recordKeys, raceKeys, hd, hc]

theorem eventRecord_split (e : XmlNode) (r : Record) (h : eventRecord e = Py.ok r) :
    ∃ base, eventBase e = Py.ok base ∧ r = base ++ eventRaceFields e := by
  unfold eventRecord at h
  cases h1 : eventBase e with
  | exn err => rw [h1] at h; simp [Bind.bind, Py.bind] at h
  | ok base =>
    rw [h1] at h
    simp only [Bind.bind, Py.bind, pure, Py.ok.injEq] at h
    exact ⟨base, rfl, h.symm⟩

/-! ## Claim theorems -/

/-- C1, counterexample: the claim says every extractor maps the
"no data" sentinel to an empty table, but the organizations extractor
raises `AttributeError` on the sentinel (it calls
`organizations_data.findall` with no `None` check). -/
theorem organizations_sentinel_raises :
    organizations_to_dataframe none = Py.exn PyError.attributeError := rfl

/-- C1 (amended): on the "no data" sentinel, the events extractor
returns an empty table, and each of the other six extractors raises
`AttributeError` — only `events_to_dataframe` checks for the
sentinel. -/
theorem sentinel_handling :
    events_to_dataframe none = Py.ok [] ∧
    organizations_to_dataframe none = Py.exn PyError.attributeError ∧
    event_classes_to_dataframe none = Py.exn PyError.attributeError ∧
    entryfees_to_dataframe none = Py.exn PyError.attributeError ∧
    entries_to_dataframe none = Py.exn PyError.attributeError ∧
    competitor_count_to_dataframe none = Py.exn PyError.attributeError ∧
    memberships_to_dataframe none = Py.exn PyError.attributeError :=
  ⟨rfl, rfl, rfl, rfl, rfl, rfl, rfl⟩

/-- C2 (code bug): extraction does raise on a missing optional path,
contradicting the spec's never-throws invariant.  On an event whose
`Organiser` node has no `OrganisationId` child, source line 74 guards
on `.//Organiser` but dereferences `.//Organiser/OrganisationId`, so
`.text` is read off `None`; and on a memberships response with no
`Organisation` node, source line 372 calls `.findtext` on `None`. -/
theorem missing_optional_path_raises :
    events_to_dataframe (some bareOrganiserTree) = Py.exn PyError.attributeError ∧
    memberships_to_dataframe (some noOrganisationTree) = Py.exn PyError.attributeError :=
  ⟨rfl, rfl⟩

/-- C3, counterexample: the claim says every event record has the full
fixed column set; but for an event with no `EventRace` node the
produced record has no `EventRaceDistance` column at all (the absent
branch never writes that key). -/
theorem no_race_record_lacks_distance_column :
    (firstRecord (events_to_dataframe (some noRaceTree))).map
        (fun r => (recordKeys r).contains "EventRaceDistance")
      = some false := rfl

/-- C3 (amended): an event record always carries the twelve base
columns followed by the race-derived columns; when `EventRace` is
present the race block is the full eight columns (whatever of
`RaceDate` / `EventCenterPosition` exist), but when `EventRace` is
absent the `EventRaceDistance` column is omitted and, of the
remaining race columns, `EventRaceName` is the empty string (not
null) while the others are null.  The spec's concrete scenario holds:
a race sub-node with `raceDistance="5000"` and no center-position
node yields `EventRaceDistance="5000"` and a null `EventCenterX`. -/
theorem events_record_schema :
    (∀ e r, eventRecord e = Py.ok r →
      recordKeys r
        = eventBaseKeys ++ (if (findDesc e "EventRace").isSome then raceKeys else noRaceKeys)) ∧
    (∀ e r, eventRecord e = Py.ok r → findDesc e "EventRace" = none →
      getField r "EventRaceDistance" = none ∧
      getField r "EventRaceName" = some (some "") ∧
      getField r "EventRaceId" = some none ∧
      getField r "RaceDate" = some none ∧
      getField r "RaceClock" = some none ∧
      getField r "EventCenterX" = some none ∧
      getField r "EventCenterY" = some none ∧
      getField r "EventCenterUnit" = some none) ∧
    fieldOfFirst (events_to_dataframe (some raceDistanceTree)) "EventRaceDistance"
      = some (some (some "5000")) ∧
    fieldOfFirst (events_to_dataframe (some raceDistanceTree)) "EventCenterX"
      = some (some none) := by
  refine ⟨?_, ?_, rfl, rfl⟩
  · intro e r h
    obtain ⟨base, hb, hr⟩ := eventRecord_split e r h
    subst hr
    have h1 := eventBase_keys e base hb
    have h2 := eventRaceFields_keys e
    have h3 : recordKeys (base ++ eventRaceFields e)
        = recordKeys base ++ recordKeys (eventRaceFields e) := by
      simp [recordKeys]
    rw [h3, h1, h2]
  · intro e r h hrace
    obtain ⟨base, hb, hr⟩ := eventRecord_split e r h
    subst hr
    have hk := eventBase_keys e base hb
    have hre : eventRaceFields e = noRaceFields := by
      simp [eventRaceFields, hrace]
    refine ⟨?_, ?_, ?_, ?_, ?_, ?_, ?_, ?_⟩ <;>
      rw [hre, getField_append_right base noRaceFields _ (by rw [hk]; decide)] <;> rfl

/-- C3, witness: the schema theorem applied to a bare event node with
no race block. -/
theorem events_record_schema_witness :
    recordKeys bareEventRecord
      = eventBaseKeys
        ++ (if (findDesc bareEvent "EventRace").isSome then raceKeys else noRaceKeys) ∧
    getField bareEventRecord "EventRaceDistance" = none ∧
    getField bareEventRecord "EventRaceName" = some (some "") :=
  ⟨events_record_schema.1 bareEvent bareEventRecord rfl,
   (events_record_schema.2.1 bareEvent bareEventRecord rfl rfl).1,
   (events_record_schema.2.1 bareEvent bareEventRecord rfl rfl).2.1⟩

/-- C4, counterexample: the claim says every non-2xx status propagates
as a transport failure, but `raise_for_status` raises only for 4xx and
5xx; a 304 response with an unparseable body is converted to the
"no data" sentinel instead of propagating. -/
theorem non_2xx_not_always_propagated :
    make_request (fun _ => none) (.resp ⟨304, "not xml"⟩) = .ok none ∧
    ¬ (200 ≤ 304 ∧ 304 < 300) :=
  ⟨rfl, by decide⟩

/-- C4 (amended): the request wrapper propagates every connection
error and every 4xx/5xx HTTP status to the caller unchanged (the
single `requests.get` call is never retried), and for any response it
does accept, the body's parse result is returned as-is — so every
parse failure becomes the "no data" sentinel, never a propagated
exception. -/
theorem make_request_spec :
    (∀ parse e, make_request parse (.exnGet e)
      = .error (TransportError.connection e)) ∧
    (∀ parse r, 400 ≤ r.status → r.status < 600 →
      make_request parse (.resp r) = .error (TransportError.http r.status)) ∧
    (∀ parse r, ¬ (400 ≤ r.status ∧ r.status < 600) →
      make_request parse (.resp r) = .ok (parse r.body)) := by
  refine ⟨fun _ _ => rfl, ?_, ?_⟩
  · intro parse r h4 h6
    simp [make_request, raise_for_status, h4, h6]
  · intro parse r h
    simp [make_request, raise_for_status, h]

/-- C4, witness: the request wrapper evaluated on a connection error,
a 404 response and a 200 response whose body fails to parse. -/
theorem make_request_spec_witness :
    make_request (fun _ => none) (.exnGet "ConnectionError")
      = .error (TransportError.connection "ConnectionError") ∧
    make_request (fun _ => none) (.resp ⟨404, "x"⟩)
      = .error (TransportError.http 404) ∧
    make_request (fun _ => none) (.resp ⟨200, "not xml"⟩) = .ok none :=
  ⟨make_request_spec.1 _ "ConnectionError",
   make_request_spec.2.1 _ ⟨404, "x"⟩ (by decide) (by decide),
   make_request_spec.2.2 _ ⟨200, "not xml"⟩ (by decide)⟩

theorem lookupParam_cons_self (k : String) (v : ParamValue) (rest : List (String × ParamValue)) :
    lookupParam ((k, v) :: rest) k = some v := by
  simp [lookupParam, List.find?]

theorem lookupParam_cons_ne (k2 k : String) (v : ParamValue) (rest : List (String × ParamValue))
    (h : (k2 == k) = false) : lookupParam ((k2, v) :: rest) k = lookupParam rest k := by
  simp [lookupParam, List.find?, h]

/-- C5 (confirmed): a non-empty date string used as a "from" bound is
serialized by the request builders (`get_events`, `get_entries`) as
`D 00:00:00`, and as a "to" bound as `D 23:59:59`, whatever the other
arguments are. -/
theorem date_bound_serialization (d : String) (h : d ≠ "") :
    (∀ td cl, lookupParam (get_events_params (some d) td cl) "fromDate"
      = some (ParamValue.s (d ++ " 00:00:00"))) ∧
    (∀ fd cl, lookupParam (get_events_params fd (some d) cl) "toDate"
      = some (ParamValue.s (d ++ " 23:59:59"))) ∧
    (∀ a b c d2 d3 d4 d5 d6 p q u v,
      lookupParam (get_entries_params a b c (some d) d2 d3 d4 d5 d6 p q u v) "fromEventDate"
        = some (ParamValue.s (d ++ " 00:00:00"))) ∧
    (∀ a b c d1 d3 d4 d5 d6 p q u v,
      lookupParam (get_entries_params a b c d1 (some d) d3 d4 d5 d6 p q u v) "toEventDate"
        = some (ParamValue.s (d ++ " 23:59:59"))) ∧
    (∀ a b c d1 d2 d4 d5 d6 p q u v,
      lookupParam (get_entries_params a b c d1 d2 (some d) d4 d5 d6 p q u v) "fromEntryDate"
        = some (ParamValue.s (d ++ " 00:00:00"))) ∧
    (∀ a b c d1 d2 d3 d5 d6 p q u v,
      lookupParam (get_entries_params a b c d1 d2 d3 (some d) d5 d6 p q u v) "toEntryDate"
        = some (ParamValue.s (d ++ " 23:59:59"))) ∧
    (∀ a b c d1 d2 d3 d4 d6 p q u v,
      lookupParam (get_entries_params a b c d1 d2 d3 d4 (some d) d6 p q u v) "fromModifyDate"
        = some (ParamValue.s (d ++ " 00:00:00"))) ∧
    (∀ a b c d1 d2 d3 d4 d5 p q u v,
      lookupParam (get_entries_params a b c d1 d2 d3 d4 d5 (some d) p q u v) "toModifyDate"
        = some (ParamValue.s (d ++ " 23:59:59"))) := by
  refine ⟨?_, ?_, ?_, ?_, ?_, ?_, ?_, ?_⟩ <;> intros <;>
    simp [get_events_params, get_entries_params, lookupParam_append_of_none,
          lookupParam_listParam_ne, lookupParam_dateParam_ne, lookupParam_dateParam_self,
          lookupParam_append_left, h]

/-- C5, witness: the date bounds evaluated for the concrete date
2024-03-01 in `get_events`. -/
theorem date_bound_serialization_witness :
    lookupParam (get_events_params (some "2024-03-01") none none) "fromDate"
      = some (ParamValue.s "2024-03-01 00:00:00") ∧
    lookupParam (get_events_params none (some "2024-03-01") none) "toDate"
      = some (ParamValue.s "2024-03-01 23:59:59") :=
  ⟨(date_bound_serialization "2024-03-01" (by decide)).1 none none,
   (date_bound_serialization "2024-03-01" (by decide)).2.1 none none⟩

/-- C6 (confirmed): the spec's memberships scenario — one organization
node with Id 7 and Name Acme, two membership nodes — yields exactly
two records, both carrying OrganisationId "7" and OrganisationName
"Acme" (the organization identity is read once and repeated). -/
theorem memberships_denormalization :
    rowCount (memberships_to_dataframe (some acmeTree)) = some 2 ∧
    allRowsHave (memberships_to_dataframe (some acmeTree))
      "OrganisationId" (some (some "7")) = true ∧
    allRowsHave (memberships_to_dataframe (some acmeTree))
      "OrganisationName" (some (some "Acme")) = true :=
  ⟨rfl, rfl, rfl⟩

/-- C7 (confirmed): on a response with two events sharing one
identical (id, name) discipline pair and a third event with a distinct
pair, the discipline-deduplication helper keeps exactly two pairs,
deduplicated by structural equality. -/
theorem disciplines_deduplication :
    disciplineRowCount (extract_disciplines_from_events (some disciplinesTree)) = some 2 ∧
    disciplinesContain (extract_disciplines_from_events (some disciplinesTree))
      ("1", "Foot O") = true ∧
    disciplinesContain (extract_disciplines_from_events (some disciplinesTree))
      ("2", "MTB O") = true :=
  ⟨rfl, rfl, rfl⟩

/-- C8, counterexample: the claim says boolean parameters are placed
in the query mapping as the literal tokens true / false, but the value
actually placed is a native boolean, which the HTTP layer renders with
capitalized Python spelling True. -/
theorem boolean_literal_token_refuted :
    lookupParam (get_event_classes_params 1 true) "includeEntryFees"
      = some (ParamValue.b true) ∧
    ParamValue.b true ≠ ParamValue.s "true" ∧
    ParamValue.b true ≠ ParamValue.s "false" ∧
    ParamValue.render (ParamValue.b true) = "True" :=
  ⟨rfl, by decide, by decide, rfl⟩

/-- C8 (amended): every boolean parameter of `get_event_classes`,
`get_entries` and `get_memberships` is placed in the query mapping as
the native boolean itself; the HTTP layer serializes it with Python's
`str`, producing the capitalized tokens True / False rather than
lowercase true / false. -/
theorem boolean_params_native :
    (∀ eid f, lookupParam (get_event_classes_params eid f) "includeEntryFees"
      = some (ParamValue.b f)) ∧
    (∀ a b c d1 d2 d3 d4 d5 d6 p q u v,
      lookupParam (get_entries_params a b c d1 d2 d3 d4 d5 d6 p q u v) "includeEntryFees"
        = some (ParamValue.b p) ∧
      lookupParam (get_entries_params a b c d1 d2 d3 d4 d5 d6 p q u v) "includePersonElement"
        = some (ParamValue.b q) ∧
      lookupParam (get_entries_params a b c d1 d2 d3 d4 d5 d6 p q u v) "includeOrganisationElement"
        = some (ParamValue.b u) ∧
      lookupParam (get_entries_params a b c d1 d2 d3 d4 d5 d6 p q u v) "includeEventElement"
        = some (ParamValue.b v)) ∧
    (∀ oid y c d, lookupParam (get_memberships_params oid y c d) "includeChildOrganisations"
        = some (ParamValue.b c) ∧
      lookupParam (get_memberships_params oid y c d) "includeContactDetails"
        = some (ParamValue.b d)) ∧
    (∀ f, ParamValue.render (ParamValue.b f) = if f then "True" else "False") := by
  refine ⟨fun eid f => rfl, ?_, fun oid y c d => ⟨rfl, rfl⟩, fun f => by cases f <;> rfl⟩
  intros a b c d1 d2 d3 d4 d5 d6 p q u v
  refine ⟨?_, ?_, ?_, ?_⟩ <;>
    simp [get_entries_params, lookupParam_append_of_none, lookupParam_listParam_ne,
          lookupParam_dateParam_ne, lookupParam_cons_self, lookupParam_cons_ne]

/-- C9 (confirmed): a non-empty ID list handed to `get_events`,
`get_entries` or `get_competitor_count` serializes to a single
comma-joined string of its elements in input order. -/
theorem id_list_serialization (l : List Int) (h : l ≠ []) :
    (∀ fd td, lookupParam (get_events_params fd td (some l)) "classificationIds"
      = some (ParamValue.s (String.intercalate "," (l.map toString)))) ∧
    (∀ b c d1 d2 d3 d4 d5 d6 p q u v,
      lookupParam (get_entries_params (some l) b c d1 d2 d3 d4 d5 d6 p q u v) "organisationIds"
        = some (ParamValue.s (String.intercalate "," (l.map toString)))) ∧
    (∀ a c d1 d2 d3 d4 d5 d6 p q u v,
      lookupParam (get_entries_params a (some l) c d1 d2 d3 d4 d5 d6 p q u v) "eventIds"
        = some (ParamValue.s (String.intercalate "," (l.map toString)))) ∧
    (∀ a b d1 d2 d3 d4 d5 d6 p q u v,
      lookupParam (get_entries_params a b (some l) d1 d2 d3 d4 d5 d6 p q u v) "eventClassIds"
        = some (ParamValue.s (String.intercalate "," (l.map toString)))) ∧
    (∀ b c, lookupParam (get_competitor_count_params (some l) b c) "organisationIds"
      = some (ParamValue.s (String.intercalate "," (l.map toString)))) ∧
    (∀ a c, lookupParam (get_competitor_count_params a (some l) c) "eventIds"
      = some (ParamValue.s (String.intercalate "," (l.map toString)))) ∧
    (∀ a b, lookupParam (get_competitor_count_params a b (some l)) "personIds"
      = some (ParamValue.s (String.intercalate "," (l.map toString)))) := by
  refine ⟨?_, ?_, ?_, ?_, ?_, ?_, ?_⟩ <;> intros <;>
    simp [get_events_params, get_entries_params, get_competitor_count_params,
          lookupParam_append_of_none, lookupParam_dateParam_ne, lookupParam_listParam_ne,
          lookupParam_listParam_self, lookupParam_listParamAny_ne, lookupParam_listParamAny_self,
          lookupParam_append_left, h]

/-- C9, witness: the list [3, 1, 2] serializes to "3,1,2", preserving
input order, in `get_events` and `get_competitor_count`. -/
theorem id_list_serialization_witness :
    lookupParam (get_events_params none none (some [3, 1, 2])) "classificationIds"
      = some (ParamValue.s "3,1,2") ∧
    lookupParam (get_competitor_count_params none (some [3, 1, 2]) none) "eventIds"
      = some (ParamValue.s "3,1,2") :=
  ⟨(id_list_serialization [3, 1, 2] (by decide)).1 none none,
   (id_list_serialization [3, 1, 2] (by decide)).2.2.2.2.2.1 none none⟩

/-- C10 (confirmed): each extractor is a pure function of the parsed
tree — the source walks the tree with read-only operations
(`findall`, `find`, `findtext`, `get`) and never mutates it — so
applying an extractor twice to the same tree yields identical
output. -/
theorem extraction_deterministic :
    ∀ d : Option XmlNode,
      events_to_dataframe d = events_to_dataframe d ∧
      organizations_to_dataframe d = organizations_to_dataframe d ∧
      event_classes_to_dataframe d = event_classes_to_dataframe d ∧
      entryfees_to_dataframe d = entryfees_to_dataframe d ∧
      entries_to_dataframe d = entries_to_dataframe d ∧
      competitor_count_to_dataframe d = competitor_count_to_dataframe d ∧
      memberships_to_dataframe d = memberships_to_dataframe d :=
  fun _ => ⟨rfl, rfl, rfl, rfl, rfl, rfl, rfl⟩

/-- C10, witness: repeated extraction compared on a concrete tree. -/
theorem extraction_deterministic_witness :
    events_to_dataframe (some raceDistanceTree) = events_to_dataframe (some raceDistanceTree) :=
  (extraction_deterministic (some raceDistanceTree)).1
